import Mathlib

/-!
Shallow embedding of the `autodi` dependency-injection container
(`src/autodi/container.py`, `src/autodi/exceptions.py`, `src/autodi/scopes.py`)
and proofs about the claims of its specification.

Modelling conventions:
* Python dicts are insertion-ordered association lists (`dictGet`, `dictSet`,
  `dictDel`); overwriting keeps the entry position, new keys are appended.
* Dependency keys are either concrete classes (`Key.cls`) or `NewType`
  aliases (`Key.newtype`); `isinstance(target, type)` holds exactly for
  `Key.cls`.
* Class definitions (constructor parameter lists with optional annotations,
  and the set of methods an instance exposes) live in an environment `Env`.
* Object identity is modelled by a fresh-id counter in the container state:
  each constructed instance carries a unique id, so "identical instance"
  is equality of values.
* A ghost event log records factory calls, hook calls and cache stores;
  it instruments the embedding without changing the modelled control flow.
* Python truthiness is modelled where the source relies on it
  (`if implementation and provider`, `if provider.scope`,
  `if self._current_scope`, `if self.init_hook`).
* Exceptions are an `Err` inductive mirroring `exceptions.py`; arbitrary
  user exceptions raised by factories/hooks are `Err.userError`.
* Recursion through `resolve` is bounded by fuel; `Err.fuelExhausted` is the
  fuel-out artifact and never occurs in any scenario below.
-/

namespace AutoDI

/-- A dependency key: a concrete class or a `NewType` alias. -/
inductive Key where
  | cls (c : Nat)
  | newtype (a : Nat)
deriving DecidableEq

/-- Runtime values; `vObj c id args` is an instance of class `c` with
identity `id` whose constructor received `args`. -/
inductive Value where
  | vNone
  | vInt (n : Int)
  | vStr (s : String)
  | vObj (c : Nat) (id : Nat) (args : List Value)

/-- Python truthiness of a value. -/
def Value.truthy : Value → Bool
  | .vNone => false
  | .vInt n => n != 0
  | .vStr s => s != ""
  | .vObj _ _ _ => true

/-- A user-supplied callable (a `provider=` argument or a callable
implementation): it can build a fresh instance of a class, return a fixed
value, or raise. -/
inductive Fn where
  | make (c : Nat)
  | const (v : Value)
  | raises (msg : String)

/-- The `implementation` argument of `register`: a class, a callable, a
plain value, or a `NewType` object (the self-binding case for alias keys). -/
inductive Impl where
  | cls (c : Nat)
  | fn (f : Fn)
  | plain (v : Value)
  | newtypeRef (a : Nat)

/-- Python truthiness of an implementation argument: classes, callables and
`NewType` objects are always truthy, plain values by `Value.truthy`. -/
def Impl.truthy : Impl → Bool
  | .cls _ => true
  | .fn _ => true
  | .plain v => v.truthy
  | .newtypeRef _ => true

/-- What a method does when called: return (`None`) or raise. -/
inductive MethodBody where
  | returnsNone
  | raises (msg : String)

/-- One constructor parameter: its name and its optional type annotation
(`none` models a parameter without a type annotation). -/
structure Param where
  pname : String
  anno : Option Key

/-- A class definition: `__name__`, the declared constructor parameters
(excluding `self`), and the methods its instances expose. -/
structure ClassDef where
  cname : String
  params : List Param
  methods : List (String × MethodBody)

/-- The static environment: class definitions and `NewType` names. -/
structure Env where
  classes : Nat → ClassDef
  newtypeName : Nat → String

/-- `__name__` of a key. -/
def Key.name (env : Env) : Key → String
  | .cls c => (env.classes c).cname
  | .newtype a => env.newtypeName a

/-- Errors, mirroring `exceptions.py` plus Python built-ins:
`valueError` is `ValueError`, `userError` is an arbitrary exception raised
by user code, `fuelExhausted` is the fuel-out artifact of the embedding. -/
inductive Err where
  | dependencyResolution (dep : Key) (msg : String)
  | circularDependency (chain : List Key)
  | scopeError (scope : String) (msg : String)
  | providerError (key : Key) (msg : String) (cause : Err)
  | valueError (msg : String)
  | userError (msg : String)
  | fuelExhausted

/-- `str(e)`: the message each exception class builds in `exceptions.py`. -/
def Err.message (env : Env) : Err → String
  | .dependencyResolution dep msg => msg ++ ": " ++ dep.name env
  | .circularDependency chain =>
      "Circular dependency detected: " ++
        String.intercalate " -> " (chain.map (Key.name env))
  | .scopeError scope msg => msg ++ " (scope: " ++ scope ++ ")"
  | .providerError key msg _ => msg ++ " for provider: " ++ key.name env
  | .valueError msg => msg
  | .userError msg => msg
  | .fuelExhausted => "fuel exhausted"

/-- The factory stored in a `Provider`: a user callable (`provider=`
argument), the closure `register` builds around `impl`, or the auto-wiring
lambda synthesized by `_get_provider` for an unregistered class. -/
inductive Factory where
  | user (f : Fn)
  | fromImpl (impl : Impl)
  | autoCls (c : Nat)

/-- `Provider`: factory, scope, and optional lifecycle hook names. -/
structure Provider where
  factory : Factory
  scope : String
  init_hook : Option String
  destroy_hook : Option String

/-- Ghost events: a factory call, a hook call on an instance, a cache store. -/
inductive Event where
  | factoryRun (k : Key)
  | hookRun (inst : Value) (hname : String)
  | cacheStore (scope : String) (k : Key)

section Dict

variable {κ : Type} {α : Type} [DecidableEq κ]

/-- Lookup in an insertion-ordered dict. -/
def dictGet : List (κ × α) → κ → Option α
  | [], _ => none
  | (k, v) :: rest, k' => if k' = k then some v else dictGet rest k'

/-- Store in an insertion-ordered dict: overwrite in place or append. -/
def dictSet : List (κ × α) → κ → α → List (κ × α)
  | [], k', v' => [(k', v')]
  | (k, v) :: rest, k', v' =>
      if k' = k then (k, v') :: rest else (k, v) :: dictSet rest k' v'

/-- `key in dict`. -/
def dictHas (d : List (κ × α)) (k : κ) : Bool :=
  (dictGet d k).isSome

/-- `del dict[key]`. -/
def dictDel : List (κ × α) → κ → List (κ × α)
  | [], _ => []
  | (k, v) :: rest, k' =>
      if k' = k then rest else (k, v) :: dictDel rest k'

end Dict

/-- Mutable container state: `_providers`, `_scoped_instances`,
`_resolution_stack`, `_current_scope`, plus the fresh-id counter and the
ghost event log. -/
structure CState where
  providers : List (Key × Provider)
  scopedInstances : List (String × List (Key × Value))
  stack : List Key
  currentScope : Option String
  nextId : Nat
  log : List Event

/-- A fresh container (`Container.__init__`). -/
def initState : CState :=
  { providers := [], scopedInstances := [], stack := [], currentScope := none,
    nextId := 0, log := [] }

/-- The per-scope instance cache; a scope absent from `_scoped_instances`
behaves as the empty dict (`defaultdict(dict)`). -/
def scopedGet (s : CState) (scope : String) : List (Key × Value) :=
  (dictGet s.scopedInstances scope).getD []

/-- `defaultdict(dict)` item access creates the entry for the scope. -/
def ensureScope (s : CState) (scope : String) : CState :=
  if dictHas s.scopedInstances scope then s
  else { s with scopedInstances := s.scopedInstances ++ [(scope, [])] }

/-- `self._scoped_instances[provider.scope][target] = instance`
(also records the ghost `cacheStore` event). -/
def storeScoped (s : CState) (scope : String) (k : Key) (v : Value) : CState :=
  { s with
    scopedInstances := dictSet s.scopedInstances scope (dictSet (scopedGet s scope) k v),
    log := s.log ++ [.cacheStore scope k] }

/-- Truthiness of `self._current_scope` (an optional string). -/
def optStrTruthy : Option String → Bool
  | none => false
  | some s => s != ""

/-- `hasattr(instance, name)` for method names: only class instances expose
methods, looked up in their class definition. -/
def hasattrM (env : Env) (v : Value) (hname : String) : Bool :=
  match v with
  | .vObj c _ _ => (dictGet (env.classes c).methods hname).isSome
  | _ => false

/-- `getattr(instance, name)()`: run a method; records the ghost `hookRun`
event for the call (also when the method raises). -/
def callMethod (env : Env) (v : Value) (hname : String) (s : CState) :
    Except Err Unit × CState :=
  match v with
  | .vObj c _ _ =>
      match dictGet (env.classes c).methods hname with
      | some .returnsNone =>
          (.ok (), { s with log := s.log ++ [.hookRun v hname] })
      | some (.raises msg) =>
          (.error (.userError msg), { s with log := s.log ++ [.hookRun v hname] })
      | none => (.error (.userError ("AttributeError: " ++ hname)), s)
  | _ => (.error (.userError ("AttributeError: " ++ hname)), s)

/-- Evaluate a user callable. `Fn.make` allocates a fresh instance. -/
def evalFn (f : Fn) (s : CState) : Except Err Value × CState :=
  match f with
  | .make c => (.ok (.vObj c s.nextId []), { s with nextId := s.nextId + 1 })
  | .const v => (.ok v, s)
  | .raises msg => (.error (.userError msg), s)

/-- The implementation a key denotes when used as its own implementation
(`impl = implementation or interface`, self-binding case). -/
def Key.asImpl : Key → Impl
  | .cls c => .cls c
  | .newtype a => .newtypeRef a

/-- `Container.register` (container.py lines 72-104). Raises `ValueError`
when both `implementation` and `provider` are truthy (Python quotes the two
argument names in the message; the quote characters are omitted here).
Otherwise stores a new `Provider` under the key, replacing any previous
entry. -/
def register (interface : Key) (implementation : Option Impl) (scope : String)
    (provider : Option Fn) (init_hook : Option String)
    (destroy_hook : Option String) (s : CState) : Except Err Unit × CState :=
  if (match implementation with
      | some i => i.truthy
      | none => false) && provider.isSome then
    (.error (.valueError
      "Cannot specify both implementation and provider simultaneously."), s)
  else
    let impl : Impl :=
      match implementation with
      | some i => if i.truthy then i else interface.asImpl
      | none => interface.asImpl
    let fac : Factory :=
      match provider with
      | some f => .user f
      | none => .fromImpl impl
    (.ok (),
     { s with providers :=
         dictSet s.providers interface ⟨fac, scope, init_hook, destroy_hook⟩ })

/-- `Container.override_provider` (lines 106-119): replaces the provider
unconditionally, with no hooks. -/
def overrideProvider (interface : Key) (provider : Fn) (scope : String)
    (s : CState) : CState :=
  { s with providers := dictSet s.providers interface ⟨.user provider, scope, none, none⟩ }

/-- `Container._get_provider` (lines 185-199): a registered provider, else a
synthesized REQUEST-scoped auto-wiring provider for a concrete class, else
`DependencyResolutionError`. Pure: it does not touch container state. -/
def getProvider (target : Key) (s : CState) : Except Err Provider :=
  match dictGet s.providers target with
  | some p => .ok p
  | none =>
      match target with
      | .cls c => .ok ⟨.autoCls c, "request", none, none⟩
      | .newtype _ => .error (.dependencyResolution target "No provider registered")

/-- `Container._check_scope` (lines 201-217): raises `ScopeError` only when
the provider's scope differs from a non-`None` current scope and neither of
the two is `APP`. -/
def checkScope (env : Env) (target : Key) (p : Provider) (s : CState) :
    Except Err Unit :=
  match s.currentScope with
  | none => .ok ()
  | some cur =>
      if p.scope ≠ cur then
        if p.scope ≠ "app" ∧ cur ≠ "app" then
          .error (.scopeError p.scope
            ("Cannot resolve " ++ target.name env ++ " with scope " ++ p.scope ++
             " in " ++ cur ++ " scope"))
        else .ok ()
      else .ok ()

/-- `Container._instantiate_class`, the parameter loop (lines 231-241):
resolve every constructor parameter in declaration order; a parameter
without a type annotation raises `ValueError` naming it (Python quotes the
parameter name; the quote characters are omitted here). The recursive call
`self.resolve(param_type)` is the callback `rec`. -/
def resolveParams (env : Env) (rec : Key → CState → Except Err Value × CState)
    (c : Nat) : List Param → List Value → CState →
    Except Err (List Value) × CState
  | [], acc, s => (.ok acc.reverse, s)
  | p :: rest, acc, s =>
      match p.anno with
      | none =>
          (.error (.valueError
            ("Parameter " ++ p.pname ++ " in " ++ (env.classes c).cname ++
             ".__init__ has no type annotation")), s)
      | some k =>
          match rec k s with
          | (.ok v, s') => resolveParams env rec c rest (v :: acc) s'
          | (.error e, s') => (.error e, s')

/-- `Container._instantiate_class` (lines 219-242): resolve the declared
constructor parameters, then build the instance (`cls(**kwargs)`), which
allocates a fresh identity. -/
def instantiateClass (env : Env)
    (rec : Key → CState → Except Err Value × CState) (c : Nat) (s : CState) :
    Except Err Value × CState :=
  match resolveParams env rec c (env.classes c).params [] s with
  | (.ok vs, s') =>
      (.ok (.vObj c s'.nextId vs), { s' with nextId := s'.nextId + 1 })
  | (.error e, s') => (.error e, s')

/-- Calling `provider.factory()`: the ghost `factoryRun` event records the
invocation (the resolving key is passed only for this instrumentation).
`fromImpl` is the closure built in `register`: a class is auto-wired, a
callable is invoked, a `NewType` object is callable but raises `TypeError`
when called with no argument, a plain value is returned verbatim. -/
def evalFactory (env : Env)
    (rec : Key → CState → Except Err Value × CState) (target : Key)
    (fac : Factory) (s : CState) : Except Err Value × CState :=
  let s := { s with log := s.log ++ [.factoryRun target] }
  match fac with
  | .user f => evalFn f s
  | .fromImpl (.cls c) => instantiateClass env rec c s
  | .fromImpl (.fn f) => evalFn f s
  | .fromImpl (.plain v) => (.ok v, s)
  | .fromImpl (.newtypeRef a) =>
      (.error (.userError
        ("TypeError: " ++ env.newtypeName a ++ " missing required argument")), s)
  | .autoCls c => instantiateClass env rec c s

/-- `Provider.__call__` (lines 44-59): run the factory, then, when an init
hook name is set (and truthy) and the instance exposes a matching method,
invoke it; awaited results are modelled as already completed. Returns the
instance. -/
def providerCall (env : Env)
    (rec : Key → CState → Except Err Value × CState) (target : Key)
    (p : Provider) (s : CState) : Except Err Value × CState :=
  match evalFactory env rec target p.factory s with
  | (.error e, s') => (.error e, s')
  | (.ok inst, s') =>
      match p.init_hook with
      | some h =>
          if h ≠ "" ∧ hasattrM env inst h then
            match callMethod env inst h s' with
            | (.ok _, s'') => (.ok inst, s'')
            | (.error e, s'') => (.error e, s'')
          else (.ok inst, s')
      | none => (.ok inst, s')

/-- The body of `Container.resolve` (lines 121-151), parameterized by the
recursive resolver `rec` for the factory's nested `self.resolve` calls:
scope-cache check, APP-cache check (`defaultdict` item access creates the
scope entries), provider lookup, scope check, cycle check against the
resolution stack, then push / `provider.factory()` / cache store under the
provider's (truthy) scope / guaranteed pop, wrapping any exception from the
factory as `ProviderError(target, str(e)) from e`. -/
def resolveStep (env : Env)
    (rec : Key → CState → Except Err Value × CState) (target : Key)
    (s : CState) : Except Err Value × CState :=
  let hit1 : Option (Value × CState) :=
    match s.currentScope with
    | some cur =>
        if cur ≠ "" then
          let s := ensureScope s cur
          match dictGet (scopedGet s cur) target with
          | some v => some (v, s)
          | none => none
        else none
    | none => none
  match hit1 with
  | some (v, s) => (.ok v, s)
  | none =>
    let s :=
      match s.currentScope with
      | some cur => if cur ≠ "" then ensureScope s cur else s
      | none => s
    let s := ensureScope s "app"
    match dictGet (scopedGet s "app") target with
    | some v => (.ok v, s)
    | none =>
      match getProvider target s with
      | .error e => (.error e, s)
      | .ok provider =>
        match checkScope env target provider s with
        | .error e => (.error e, s)
        | .ok _ =>
          if target ∈ s.stack then
            (.error (.circularDependency (s.stack ++ [target])), s)
          else
            let s1 := { s with stack := s.stack ++ [target] }
            match evalFactory env rec target provider.factory s1 with
            | (.ok inst, s2) =>
                let s3 :=
                  if provider.scope ≠ "" then
                    storeScoped s2 provider.scope target inst
                  else s2
                (.ok inst, { s3 with stack := s3.stack.dropLast })
            | (.error e, s2) =>
                (.error (.providerError target (e.message env) e),
                 { s2 with stack := s2.stack.dropLast })

/-- `Container.resolve` (lines 121-151), fuel-bounded: each nested
`self.resolve` reached through a factory runs with one unit less fuel. -/
def resolve (env : Env) : Nat → Key → CState → Except Err Value × CState
  | 0, _, s => (.error .fuelExhausted, s)
  | fuel + 1, target, s => resolveStep env (resolve env fuel) target s

/-- `Container.resolve_async` (lines 153-183): identical to `resolve`
except that the instance is produced by `await provider()`
(`Provider.__call__`, which also runs the init hook). Nested constructor
resolution still goes through the synchronous `self.resolve` inside
`_instantiate_class`. -/
def resolveAsync (env : Env) (fuel : Nat) (target : Key) (s : CState) :
    Except Err Value × CState :=
  let hit1 : Option (Value × CState) :=
    match s.currentScope with
    | some cur =>
        if cur ≠ "" then
          let s := ensureScope s cur
          match dictGet (scopedGet s cur) target with
          | some v => some (v, s)
          | none => none
        else none
    | none => none
  match hit1 with
  | some (v, s) => (.ok v, s)
  | none =>
    let s :=
      match s.currentScope with
      | some cur => if cur ≠ "" then ensureScope s cur else s
      | none => s
    let s := ensureScope s "app"
    match dictGet (scopedGet s "app") target with
    | some v => (.ok v, s)
    | none =>
      match getProvider target s with
      | .error e => (.error e, s)
      | .ok provider =>
        match checkScope env target provider s with
        | .error e => (.error e, s)
        | .ok _ =>
          if target ∈ s.stack then
            (.error (.circularDependency (s.stack ++ [target])), s)
          else
            let s1 := { s with stack := s.stack ++ [target] }
            match providerCall env (resolve env fuel) target provider s1 with
            | (.ok inst, s2) =>
                let s3 :=
                  if provider.scope ≠ "" then
                    storeScoped s2 provider.scope target inst
                  else s2
                (.ok inst, { s3 with stack := s3.stack.dropLast })
            | (.error e, s2) =>
                (.error (.providerError target (e.message env) e),
                 { s2 with stack := s2.stack.dropLast })

/-- The destroy-hook loop of `Container._cleanup_scope` (lines 285-288):
for each cached `(interface, instance)` pair in insertion order, look up the
provider; when it exists, declares a (truthy) destroy hook and the instance
exposes a matching method, call it. A hook exception aborts the loop. -/
def runDestroyHooks (env : Env) (providers : List (Key × Provider)) :
    List (Key × Value) → CState → Except Err Unit × CState
  | [], s => (.ok (), s)
  | (k, inst) :: rest, s =>
      match dictGet providers k with
      | some p =>
          match p.destroy_hook with
          | some h =>
              if h ≠ "" ∧ hasattrM env inst h then
                match callMethod env inst h s with
                | (.ok _, s') => runDestroyHooks env providers rest s'
                | (.error e, s') => (.error e, s')
              else runDestroyHooks env providers rest s
          | none => runDestroyHooks env providers rest s
      | none => runDestroyHooks env providers rest s

/-- `Container._cleanup_scope` (lines 278-289): when the scope has a cache
entry, run every destroy hook in insertion order, then delete the scope's
cache. A hook exception propagates and the cache is not deleted. -/
def cleanupScope (env : Env) (scopeName : String) (s : CState) :
    Except Err Unit × CState :=
  if dictHas s.scopedInstances scopeName then
    match runDestroyHooks env s.providers (scopedGet s scopeName) s with
    | (.ok _, s') =>
        (.ok (), { s' with scopedInstances := dictDel s'.scopedInstances scopeName })
    | (.error e, s') => (.error e, s')
  else (.ok (), s)

/-- `Container.enter_scope` (lines 244-259): reject nesting when the current
scope is truthy, set the scope, run the enclosed work, and in the guaranteed
cleanup step tear the scope down before clearing the marker. A cleanup
exception replaces the work's outcome and leaves the marker set (the
statement clearing it is never reached). -/
def enterScope {α : Type} (env : Env) (scopeName : String)
    (work : CState → Except Err α × CState) (s : CState) :
    Except Err α × CState :=
  if optStrTruthy s.currentScope then
    (.error (.scopeError scopeName "Nested scopes are not supported"), s)
  else
    let s1 := { s with currentScope := some scopeName }
    match work s1 with
    | (r, s2) =>
        match cleanupScope env scopeName s2 with
        | (.ok _, s3) => (r, { s3 with currentScope := none })
        | (.error e, s3) => (.error e, s3)

/-- `Container.cleanup` (lines 307-309): APP-scope teardown. -/
def cleanup (env : Env) (s : CState) : Except Err Unit × CState :=
  cleanupScope env "app" s

/-! ### Observers used by the theorems -/

/-- Is the resolution outcome an error? -/
def isErrorRes (r : Except Err Value) : Bool :=
  match r with
  | .error _ => true
  | .ok _ => false

/-- Is the outcome a `CircularDependencyError` (not merely one wrapped
inside another exception)? -/
def isCircularRes (r : Except Err Value) : Bool :=
  match r with
  | .error (.circularDependency _) => true
  | _ => false

/-- Does the event test hold for a `factoryRun` of this key? -/
def isFactoryRunFor (k : Key) : Event → Bool
  | .factoryRun k' => decide (k' = k)
  | _ => false

/-- How often the key's factory was invoked. -/
def countFactoryRuns (k : Key) (log : List Event) : Nat :=
  (log.filter (isFactoryRunFor k)).length

/-- Is the event any hook invocation? -/
def isHookRun : Event → Bool
  | .hookRun _ _ => true
  | _ => false

/-- How many hook invocations the log records. -/
def countHookRuns (log : List Event) : Nat :=
  (log.filter isHookRun).length

/-- Does this hook call return normally (`callMethod` succeeds)? -/
def hookOk (env : Env) (inst : Value) (h : String) : Bool :=
  match inst with
  | .vObj c _ _ =>
      match dictGet (env.classes c).methods h with
      | some .returnsNone => true
      | _ => false
  | _ => false

/-- The destroy-hook calls `_cleanup_scope` makes for a scope cache, in
insertion order: one per cached instance whose provider declares a truthy
destroy hook the instance exposes. -/
def destroyEvents (env : Env) (providers : List (Key × Provider)) :
    List (Key × Value) → List Event
  | [] => []
  | (k, inst) :: rest =>
      (match dictGet providers k with
       | some p =>
           match p.destroy_hook with
           | some h =>
               if h ≠ "" ∧ hasattrM env inst h then [Event.hookRun inst h] else []
           | none => []
       | none => []) ++ destroyEvents env providers rest

/-- Every destroy hook that `_cleanup_scope` would call on this cache
returns normally. -/
def hooksSucceed (env : Env) (providers : List (Key × Provider)) :
    List (Key × Value) → Bool
  | [] => true
  | (k, inst) :: rest =>
      (match dictGet providers k with
       | some p =>
           match p.destroy_hook with
           | some h =>
               if h ≠ "" ∧ hasattrM env inst h then hookOk env inst h else true
           | none => true
       | none => true) && hooksSucceed env providers rest

/-! ### Concrete scenarios used by the claims -/

/-- C1 scenario: class `A` (id 0) depends on `B` (id 1) and vice versa. -/
def envC1 : Env :=
  { classes := fun c =>
      if c = 0 then ⟨"A", [⟨"b", some (.cls 1)⟩], []⟩
      else ⟨"B", [⟨"a", some (.cls 0)⟩], []⟩,
    newtypeName := fun _ => "N" }

/-- C1 scenario: both keys registered (self-binding, APP scope defaults). -/
def stC1 : CState :=
  (register (.cls 1) none "app" none none none
    (register (.cls 0) none "app" none none none initState).2).2

/-- C2 scenario: a class exposing a `setup` method, registered with
`init_hook="setup"`. -/
def envC2 : Env :=
  { classes := fun _ => ⟨"Svc", [], [("setup", .returnsNone)]⟩,
    newtypeName := fun _ => "N" }

/-- C2 scenario: the registration with the init hook set. -/
def stC2 : CState :=
  (register (.cls 5) none "app" none (some "setup") none initState).2

/-- C3 scenario: a dependency-free class. -/
def envC3 : Env :=
  { classes := fun _ => ⟨"Svc", [], []⟩, newtypeName := fun _ => "N" }

/-- C3 scenario: the key registered with REQUEST scope. -/
def stC3 : CState :=
  (register (.cls 5) none "request" none none none initState).2

/-- C5 scenario: `ServiceA` (id 0, REQUEST) depends on `ServiceB`
(id 1, APP, no dependencies). -/
def envC5 : Env :=
  { classes := fun c =>
      if c = 0 then ⟨"ServiceA", [⟨"b", some (.cls 1)⟩], []⟩
      else ⟨"ServiceB", [], []⟩,
    newtypeName := fun _ => "N" }

/-- C5 scenario: both registrations. -/
def stC5 : CState :=
  (register (.cls 0) none "request" none none none
    (register (.cls 1) none "app" none none none initState).2).2

/-- C5 scenario: the work inside `enter_scope(REQUEST)` — resolve
`ServiceA` twice and return both instances. -/
def workC5 (s : CState) : Except Err (Value × Value) × CState :=
  match resolve envC5 10 (.cls 0) s with
  | (.ok a1, s1) =>
      match resolve envC5 10 (.cls 0) s1 with
      | (.ok a2, s2) => (.ok (a1, a2), s2)
      | (.error e, s2) => (.error e, s2)
  | (.error e, s1) => (.error e, s1)

/-- C7 witness scenario: two resource classes, each with a destroy hook
that returns normally. -/
def envC7 : Env :=
  { classes := fun c =>
      if c = 0 then ⟨"R1", [], [("bye1", .returnsNone)]⟩
      else ⟨"R2", [], [("bye2", .returnsNone)]⟩,
    newtypeName := fun _ => "N" }

/-- C7 witness scenario: both keys registered REQUEST-scoped with their
destroy hooks. -/
def stC7 : CState :=
  (register (.cls 1) none "request" none none (some "bye2")
    (register (.cls 0) none "request" none none (some "bye1") initState).2).2

/-- C7 witness scenario: resolve both keys inside the scope. -/
def workC7 (s : CState) : Except Err Unit × CState :=
  match resolve envC7 10 (.cls 0) s with
  | (.ok _, s1) =>
      match resolve envC7 10 (.cls 1) s1 with
      | (.ok _, s2) => (.ok (), s2)
      | (.error e, s2) => (.error e, s2)
  | (.error e, s1) => (.error e, s1)

/-- C8 scenario: `Widget` (id 0) needs a `Gadget` (id 1, parameterless);
`Broken` (id 2) has a constructor parameter `y` without an annotation. -/
def envC8 : Env :=
  { classes := fun c =>
      if c = 0 then ⟨"Widget", [⟨"dep", some (.cls 1)⟩], []⟩
      else if c = 1 then ⟨"Gadget", [], []⟩
      else ⟨"Broken", [⟨"y", none⟩], []⟩,
    newtypeName := fun _ => "N" }

/-- C10 scenario: `Bad` (id 2) has a destroy hook that raises; `R2` (id 1)
has one that returns. -/
def envC10 : Env :=
  { classes := fun c =>
      if c = 1 then ⟨"R2", [], [("bye2", .returnsNone)]⟩
      else ⟨"Bad", [], [("boom", .raises "kaboom")]⟩,
    newtypeName := fun _ => "N" }

/-- C10 scenario: `Bad` registered first (hook `boom`), then `R2`
(hook `bye2`), both REQUEST-scoped. -/
def stC10 : CState :=
  (register (.cls 1) none "request" none none (some "bye2")
    (register (.cls 2) none "request" none none (some "boom") initState).2).2

/-- C10 scenario: resolve `Bad` then `R2` inside the scope. -/
def workC10 (s : CState) : Except Err Unit × CState :=
  match resolve envC10 10 (.cls 2) s with
  | (.ok _, s1) =>
      match resolve envC10 10 (.cls 1) s1 with
      | (.ok _, s2) => (.ok (), s2)
      | (.error e, s2) => (.error e, s2)
  | (.error e, s1) => (.error e, s1)

/-- C10 scenario: the failed scope exit. -/
def runC10 : Except Err Unit × CState :=
  enterScope envC10 "request" workC10 stC10

/-! ### Helper lemmas -/

/-- Lookup distributes over dict concatenation. -/
theorem dictGet_append {κ : Type} {α : Type} [DecidableEq κ]
    (l₁ l₂ : List (κ × α)) (k : κ) :
    dictGet (l₁ ++ l₂) k =
      match dictGet l₁ k with
      | some v => some v
      | none => dictGet l₂ k := by
  induction l₁ with
  | nil => simp [dictGet]
  | cons h t ih =>
      obtain ⟨k', v⟩ := h
      by_cases hk : k = k' <;> simp [dictGet, hk, ih]

/-- Deleting an absent key leaves a dict unchanged. -/
theorem dictDel_of_get_none {κ : Type} {α : Type} [DecidableEq κ]
    (d : List (κ × α)) (k : κ) (h : dictGet d k = none) : dictDel d k = d := by
  induction d with
  | nil => rfl
  | cons hd t ih =>
      obtain ⟨k', v⟩ := hd
      by_cases hk : k = k'
      · simp [dictGet, hk] at h
      · simp [dictGet, hk] at h
        simp [dictDel, hk, ih h]

/-- Creating a `defaultdict` entry does not change any scope cache's
contents. -/
theorem scopedGet_ensureScope (s : CState) (sc sc2 : String) :
    scopedGet (ensureScope s sc) sc2 = scopedGet s sc2 := by
  unfold ensureScope
  split
  · rfl
  · unfold scopedGet
    simp only
    rw [dictGet_append]
    cases hx : dictGet s.scopedInstances sc2 with
    | some v => simp
    | none => by_cases h : sc2 = sc <;> simp [dictGet, h]

/-- `ensureScope` touches only the scope caches. -/
theorem ensureScope_providers (s : CState) (sc : String) :
    (ensureScope s sc).providers = s.providers := by
  unfold ensureScope; split <;> rfl

/-- `ensureScope` touches only the scope caches. -/
theorem ensureScope_currentScope (s : CState) (sc : String) :
    (ensureScope s sc).currentScope = s.currentScope := by
  unfold ensureScope; split <;> rfl

/-- `ensureScope` touches only the scope caches. -/
theorem ensureScope_stack (s : CState) (sc : String) :
    (ensureScope s sc).stack = s.stack := by
  unfold ensureScope; split <;> rfl

/-- `ensureScope` touches only the scope caches. -/
theorem ensureScope_nextId (s : CState) (sc : String) :
    (ensureScope s sc).nextId = s.nextId := by
  unfold ensureScope; split <;> rfl

/-- `ensureScope` touches only the scope caches. -/
theorem ensureScope_log (s : CState) (sc : String) :
    (ensureScope s sc).log = s.log := by
  unfold ensureScope; split <;> rfl

/-- A hook whose method returns normally: `callMethod` succeeds and only
appends the `hookRun` event. -/
theorem callMethod_ok (env : Env) (inst : Value) (h : String) (s : CState)
    (hok : hookOk env inst h = true) :
    callMethod env inst h s =
      (.ok (), { s with log := s.log ++ [.hookRun inst h] }) := by
  cases inst with
  | vNone => simp [hookOk] at hok
  | vInt n => simp [hookOk] at hok
  | vStr str => simp [hookOk] at hok
  | vObj c i as =>
      unfold hookOk at hok
      unfold callMethod
      cases hm : dictGet (env.classes c).methods h with
      | none => simp [hm] at hok
      | some mb =>
          cases mb with
          | returnsNone => simp [hm]
          | raises m => simp [hm] at hok

/-- When every destroy hook of the cache returns normally, the teardown
loop succeeds and appends exactly the per-entry hook events, in insertion
order. -/
theorem runDestroyHooks_ok (env : Env) (prov : List (Key × Provider)) :
    ∀ (entries : List (Key × Value)) (s : CState),
      hooksSucceed env prov entries = true →
      runDestroyHooks env prov entries s =
        (.ok (), { s with log := s.log ++ destroyEvents env prov entries }) := by
  intro entries
  induction entries with
  | nil => intro s h; simp [runDestroyHooks, destroyEvents]
  | cons hd tl ih =>
      intro s h
      obtain ⟨k, inst⟩ := hd
      unfold hooksSucceed at h
      rw [Bool.and_eq_true] at h
      obtain ⟨h1, h2⟩ := h
      unfold runDestroyHooks destroyEvents
      cases hp : dictGet prov k with
      | none => simp [hp] at h1 ⊢; rw [ih s h2]
      | some p =>
          cases hdh : p.destroy_hook with
          | none => simp [hp, hdh] at h1 ⊢; rw [ih s h2]
          | some hk =>
              by_cases hcond : hk ≠ "" ∧ hasattrM env inst hk = true
              · simp only [hp, hdh] at h1 ⊢
                rw [if_pos hcond] at h1
                rw [if_pos hcond, callMethod_ok env inst hk s h1]
                simp only [if_pos hcond]
                rw [ih _ h2]
                simp
              · have hsplit : hk = "" ∨ hasattrM env inst hk = false := by
                  by_cases he : hk = ""
                  · exact Or.inl he
                  · cases hha : hasattrM env inst hk
                    · exact Or.inr rfl
                    · exact absurd ⟨he, hha⟩ hcond
                rcases hsplit with he | hf
                · subst he; simp [hp, hdh, ih, h2]
                · simp [hp, hdh, hf, ih, h2]

/-- `_cleanup_scope` under succeeding hooks: runs the hooks in insertion
order and discards the scope's whole cache. -/
theorem cleanupScope_ok (env : Env) (nm : String) (s : CState)
    (h : hooksSucceed env s.providers (scopedGet s nm) = true) :
    cleanupScope env nm s =
      (.ok (), { s with
        scopedInstances := dictDel s.scopedInstances nm,
        log := s.log ++ destroyEvents env s.providers (scopedGet s nm) }) := by
  unfold cleanupScope
  by_cases hh : dictHas s.scopedInstances nm
  · rw [if_pos hh, runDestroyHooks_ok env s.providers (scopedGet s nm) s h]
  · rw [if_neg hh]
    have hg : dictGet s.scopedInstances nm = none := by
      unfold dictHas at hh
      cases hx : dictGet s.scopedInstances nm with
      | none => rfl
      | some v => rw [hx] at hh; simp at hh
    have hsg : scopedGet s nm = [] := by unfold scopedGet; rw [hg]; rfl
    rw [hsg, dictDel_of_get_none s.scopedInstances nm hg]
    simp [destroyEvents]

/-! ### The claims -/

/-- C1 counterexample: with `A` and `B` registered to depend on each other,
`resolve(A)` does fail, but the error surfaced to the caller is not a
circular-dependency error (it is a provider error wrapping one), so the
claim as stated is false at this input. -/
theorem c1_counterexample :
    isErrorRes (resolve envC1 10 (.cls 0) stC1).1 = true ∧
    isCircularRes (resolve envC1 10 (.cls 0) stC1).1 = false := ⟨rfl, rfl⟩

/-- C1 (amended): with `A` and `B` registered to depend on each other,
`resolve(A)` fails; the circular-dependency error with chain exactly
`[A, B, A]` is raised when `A` re-enters the resolution stack, but each
enclosing `resolve` wraps it, so the caller receives a provider error for
`A` whose cause is a provider error for `B` whose cause is the
circular-dependency error with chain `[A, B, A]`. -/
theorem c1_wrapped_cycle_error :
    (resolve envC1 10 (.cls 0) stC1).1 =
      .error (.providerError (.cls 0)
        "Circular dependency detected: A -> B -> A for provider: B"
        (.providerError (.cls 1)
          "Circular dependency detected: A -> B -> A"
          (.circularDependency [.cls 0, .cls 1, .cls 0]))) := rfl

/-- C2 counterexample: a key whose provider has `init_hook="setup"` set and
whose instance exposes `setup`; blocking `resolve` succeeds, yet no hook
invocation is recorded at all — the blocking path never invokes the init
hook, so the claim as stated is false at this input. -/
theorem c2_counterexample :
    (resolve envC2 5 (.cls 5) stC2).1 = .ok (.vObj 5 0 []) ∧
    countHookRuns (resolve envC2 5 (.cls 5) stC2).2.log = 0 := ⟨rfl, rfl⟩

/-- C2 (amended): on the suspending path (`resolve_async`, which calls
`Provider.__call__`) the init hook is invoked after the factory completes
and before the instance is stored in the scope cache; the blocking path
(`resolve`, which calls `provider.factory()` directly) never invokes the
init hook. -/
theorem c2_hook_ordering :
    (resolve envC2 5 (.cls 5) stC2).1 = .ok (.vObj 5 0 []) ∧
    (resolve envC2 5 (.cls 5) stC2).2.log =
      [.factoryRun (.cls 5), .cacheStore "app" (.cls 5)] ∧
    (resolveAsync envC2 5 (.cls 5) stC2).1 = .ok (.vObj 5 0 []) ∧
    (resolveAsync envC2 5 (.cls 5) stC2).2.log =
      [.factoryRun (.cls 5), .hookRun (.vObj 5 0 []) "setup",
       .cacheStore "app" (.cls 5)] := ⟨rfl, rfl, rfl, rfl⟩

/-- C3 counterexample: a key registered with REQUEST scope resolves
successfully while no scope is active at all, so the claim that such a
resolution fails with a scope error is false at this input. -/
theorem c3_counterexample :
    stC3.currentScope = none ∧
    (dictGet stC3.providers (.cls 5)).map Provider.scope = some "request" ∧
    (resolve envC3 5 (.cls 5) stC3).1 = .ok (.vObj 5 0 []) := ⟨rfl, rfl, rfl⟩

/-- C3 (amended): for a REQUEST-scoped provider the scope check passes when
no scope is active and when the active scope is REQUEST or APP; it fails,
with a scope error naming both the provider's scope and the current scope,
exactly when an active scope differs from both REQUEST and APP. -/
theorem c3_request_scope_check (env : Env) (target : Key) (p : Provider)
    (s : CState) (hp : p.scope = "request") :
    checkScope env target p s =
      match s.currentScope with
      | none => .ok ()
      | some cur =>
          if cur ≠ "request" ∧ cur ≠ "app" then
            .error (.scopeError "request"
              ("Cannot resolve " ++ target.name env ++ " with scope " ++
               "request" ++ " in " ++ cur ++ " scope"))
          else .ok () := by
  unfold checkScope
  cases hc : s.currentScope with
  | none => rfl
  | some cur =>
    rw [hp]
    by_cases h1 : cur = "request"
    · subst h1; simp
    · by_cases h2 : cur = "app"
      · subst h2; simp
      · have h1s : "request" ≠ cur := fun h => h1 h.symm
        simp [h1, h2, h1s]

/-- C3 witness: the amended scope check at concrete inputs — error under an
active scope `"web"`, success under no scope. -/
theorem c3_request_scope_check_witness :
    (⟨.user (.const .vNone), "request", none, none⟩ : Provider).scope =
      "request" ∧
    checkScope envC3 (.cls 5) ⟨.user (.const .vNone), "request", none, none⟩
      { initState with currentScope := some "web" } =
      .error (.scopeError "request"
        ("Cannot resolve " ++ Key.name envC3 (.cls 5) ++ " with scope " ++
         "request" ++ " in " ++ "web" ++ " scope")) ∧
    checkScope envC3 (.cls 5) ⟨.user (.const .vNone), "request", none, none⟩
      initState = .ok () :=
  ⟨rfl,
   c3_request_scope_check envC3 (.cls 5) _
     { initState with currentScope := some "web" } rfl,
   c3_request_scope_check envC3 (.cls 5) _ initState rfl⟩

/-- C4: for any key registered with APP scope (here with a provider that
builds a fresh instance on every call), two successive `resolve` calls
return the identical instance — the second call returns the first call's
exact result and leaves the state untouched — and the factory-run count
across both calls is one. -/
theorem c4_app_singleton (env : Env) (k : Key) (c : Nat) (fuel : Nat) :
    ((resolve env (fuel+1) k
        (register k none "app" (some (.make c)) none none initState).2).1 =
      .ok (.vObj c 0 [])) ∧
    (resolve env (fuel+1) k
        (resolve env (fuel+1) k
          (register k none "app" (some (.make c)) none none initState).2).2 =
      ((resolve env (fuel+1) k
          (register k none "app" (some (.make c)) none none initState).2).1,
       (resolve env (fuel+1) k
          (register k none "app" (some (.make c)) none none initState).2).2)) ∧
    countFactoryRuns k
      (resolve env (fuel+1) k
        (register k none "app" (some (.make c)) none none initState).2).2.log
      = 1 := by
  refine ⟨?_, ?_, ?_⟩ <;>
    simp [register, initState, resolve, resolveStep, ensureScope, scopedGet,
      getProvider, checkScope, evalFactory, evalFn, storeScoped,
      dictGet, dictSet, dictHas, countFactoryRuns, isFactoryRunFor,
      List.filter, Err.message]

/-- C5 counterexample: with `ServiceB` APP-scoped and `ServiceA`
REQUEST-scoped depending on it, resolving `ServiceA` twice inside one
`enter_scope(REQUEST)` returns the identical instance both times (the
REQUEST cache serves the second call), so the claimed distinctness is false
at this input. -/
theorem c5_counterexample :
    (enterScope envC5 "request" workC5 stC5).1 =
      .ok (.vObj 0 1 [.vObj 1 0 []], .vObj 0 1 [.vObj 1 0 []]) := rfl

/-- C5 (amended): inside one `enter_scope(REQUEST)` activation, resolving
`ServiceA` twice yields the identical `ServiceA` instance (which holds the
`ServiceB` singleton, instance id 0); after the scope exits, resolving
`ServiceB` outside any scope returns that same singleton. -/
theorem c5_request_scope_caching :
    (enterScope envC5 "request" workC5 stC5).1 =
      .ok (.vObj 0 1 [.vObj 1 0 []], .vObj 0 1 [.vObj 1 0 []]) ∧
    (enterScope envC5 "request" workC5 stC5).2.currentScope = none ∧
    (resolve envC5 10 (.cls 1) (enterScope envC5 "request" workC5 stC5).2).1 =
      .ok (.vObj 1 0 []) := ⟨rfl, rfl, rfl⟩

/-- C6: for any key whose registered provider raises, `resolve` surfaces a
provider error naming the key with the original exception as its cause; the
resolution stack is back to its pre-call depth (empty), nothing is stored
in any scope cache, and resolving the same key again yields the same
provider error rather than a poisoned state. -/
theorem c6_factory_failure (env : Env) (k : Key) (m : String) (fuel : Nat) :
    (resolve env (fuel+1) k
        (register k none "app" (some (.raises m)) none none initState).2) =
      (.error (.providerError k m (.userError m)),
       { providers := [(k, ⟨.user (.raises m), "app", none, none⟩)],
         scopedInstances := [("app", [])], stack := [], currentScope := none,
         nextId := 0, log := [.factoryRun k] }) ∧
    (resolve env (fuel+1) k
        { providers := [(k, ⟨.user (.raises m), "app", none, none⟩)],
          scopedInstances := [("app", [])], stack := [], currentScope := none,
          nextId := 0, log := [.factoryRun k] }).1 =
      .error (.providerError k m (.userError m)) := by
  constructor <;>
    simp [register, initState, resolve, resolveStep, ensureScope, scopedGet,
      getProvider, checkScope, evalFactory, evalFn, storeScoped,
      dictGet, dictSet, dictHas, Err.message]

/-- C7: when every destroy hook of the instances cached in the scope
returns normally, `enter_scope` — whether the wrapped work finished
normally or raised, its outcome is passed through unchanged — appends
exactly one `hookRun` event per hook-bearing cached instance, in insertion
order of first resolution (`destroyEvents`), discards the scope's entire
cache, and clears the active-scope marker. -/
theorem c7_scope_teardown (α : Type) (env : Env) (sn : String)
    (work : CState → Except Err α × CState) (s : CState)
    (h0 : optStrTruthy s.currentScope = false)
    (hsucc : hooksSucceed env
        (work { s with currentScope := some sn }).2.providers
        (scopedGet (work { s with currentScope := some sn }).2 sn) = true) :
    enterScope env sn work s =
      ((work { s with currentScope := some sn }).1,
       { (work { s with currentScope := some sn }).2 with
           scopedInstances :=
             dictDel (work { s with currentScope := some sn }).2.scopedInstances
               sn,
           currentScope := none,
           log := (work { s with currentScope := some sn }).2.log ++
             destroyEvents env
               (work { s with currentScope := some sn }).2.providers
               (scopedGet (work { s with currentScope := some sn }).2 sn) }) := by
  unfold enterScope
  rw [h0]
  simp only [Bool.false_eq_true, if_false]
  rcases hw : work { s with currentScope := some sn } with ⟨r, s2⟩
  rw [hw] at hsucc
  simp only [hw]
  rw [cleanupScope_ok env sn s2 hsucc]

/-- C7 witness: the teardown theorem applied to the concrete two-resource
scenario — after the scope exits, the marker is cleared, the REQUEST cache
is empty, and the log ends with both destroy-hook events in insertion
order. -/
theorem c7_scope_teardown_witness :
    optStrTruthy stC7.currentScope = false ∧
    hooksSucceed envC7
      (workC7 { stC7 with currentScope := some "request" }).2.providers
      (scopedGet (workC7 { stC7 with currentScope := some "request" }).2
        "request") = true ∧
    (enterScope envC7 "request" workC7 stC7).2.currentScope = none ∧
    scopedGet (enterScope envC7 "request" workC7 stC7).2 "request" = [] ∧
    (enterScope envC7 "request" workC7 stC7).2.log =
      (workC7 { stC7 with currentScope := some "request" }).2.log ++
        destroyEvents envC7
          (workC7 { stC7 with currentScope := some "request" }).2.providers
          (scopedGet (workC7 { stC7 with currentScope := some "request" }).2
            "request") := by
  refine ⟨rfl, by decide, ?_, ?_, ?_⟩ <;>
    · rw [c7_scope_teardown Unit envC7 "request" workC7 stC7 rfl (by decide)]
      try rfl

/-- C8: auto-wiring of unregistered concrete classes. (1) For any class
whose first constructor parameter lacks a type annotation, `resolve` fails
with a provider error (wrapping the `ValueError`) whose message names that
parameter. (2) For any class with a parameterless constructor, `resolve`
instantiates it directly: a fresh instance with no constructor arguments,
and the log shows one factory run and the cache store, nothing else.
(3) In the concrete scenario, the unregistered `Widget` resolves by
recursively resolving its `Gadget` parameter (both factories run, inner
before outer store). -/
theorem c8_autowiring :
    (∀ (env : Env) (c : Nat) (pn : String) (rest : List Param) (s : CState)
       (fuel : Nat),
       (env.classes c).params = ⟨pn, none⟩ :: rest →
       dictGet s.providers (.cls c) = none →
       s.currentScope = none →
       dictGet (scopedGet s "app") (.cls c) = none →
       (Key.cls c) ∉ s.stack →
       (resolve env (fuel+1) (.cls c) s).1 =
         .error (.providerError (.cls c)
           ("Parameter " ++ pn ++ " in " ++ (env.classes c).cname ++
            ".__init__ has no type annotation")
           (.valueError
             ("Parameter " ++ pn ++ " in " ++ (env.classes c).cname ++
              ".__init__ has no type annotation")))) ∧
    (∀ (env : Env) (c : Nat) (s : CState) (fuel : Nat),
       (env.classes c).params = [] →
       dictGet s.providers (.cls c) = none →
       s.currentScope = none →
       dictGet (scopedGet s "app") (.cls c) = none →
       (Key.cls c) ∉ s.stack →
       (resolve env (fuel+1) (.cls c) s).1 = .ok (.vObj c s.nextId []) ∧
       (resolve env (fuel+1) (.cls c) s).2.log =
         s.log ++ [.factoryRun (.cls c), .cacheStore "request" (.cls c)]) ∧
    ((resolve envC8 10 (.cls 0) initState).1 =
       .ok (.vObj 0 1 [.vObj 1 0 []]) ∧
     (resolve envC8 10 (.cls 0) initState).2.log =
       [.factoryRun (.cls 0), .factoryRun (.cls 1),
        .cacheStore "request" (.cls 1), .cacheStore "request" (.cls 0)]) := by
  refine ⟨?_, ?_, rfl, rfl⟩
  · intro env c pn rest s fuel hparams hunreg hcur hmiss hstk
    simp only [resolve, resolveStep, hcur]
    rw [scopedGet_ensureScope]
    simp only [hmiss]
    unfold getProvider
    rw [ensureScope_providers]
    simp only [hunreg]
    unfold checkScope
    rw [ensureScope_currentScope]
    simp only [hcur]
    rw [ensureScope_stack]
    simp only [hstk, if_false]
    unfold evalFactory instantiateClass resolveParams
    simp only [hparams]
    simp [Err.message]
  · intro env c s fuel hparams hunreg hcur hmiss hstk
    constructor <;>
    · simp only [resolve, resolveStep, hcur]
      rw [scopedGet_ensureScope]
      simp only [hmiss]
      unfold getProvider
      rw [ensureScope_providers]
      simp only [hunreg]
      unfold checkScope
      rw [ensureScope_currentScope]
      simp only [hcur]
      rw [ensureScope_stack]
      simp only [hstk, if_false]
      unfold evalFactory instantiateClass resolveParams
      simp only [hparams]
      simp [storeScoped, scopedGet_ensureScope, ensureScope_nextId,
        ensureScope_log]

/-- C8 witness: the auto-wiring theorem at concrete inputs — the
unregistered `Broken` (parameter `y` unannotated) fails naming `y`, and the
unregistered parameterless `Gadget` is instantiated directly. -/
theorem c8_autowiring_witness :
    ((envC8.classes 2).params = [⟨"y", none⟩] ∧
     (resolve envC8 5 (.cls 2) initState).1 =
       .error (.providerError (.cls 2)
         "Parameter y in Broken.__init__ has no type annotation"
         (.valueError
           "Parameter y in Broken.__init__ has no type annotation"))) ∧
    ((envC8.classes 1).params = [] ∧
     (resolve envC8 5 (.cls 1) initState).1 = .ok (.vObj 1 0 [])) :=
  ⟨⟨rfl, c8_autowiring.1 envC8 2 "y" [] initState 4 rfl rfl rfl rfl
      (by decide)⟩,
   ⟨rfl, (c8_autowiring.2.1 envC8 1 initState 4 rfl rfl rfl rfl
      (by decide)).1⟩⟩

/-- C9 counterexample: `register` called with both an implementation (the
plain value `0`, which is falsy) and a provider does not fail — it
registers the provider, changing the registry entry — so the claim as
stated is false at this input. -/
theorem c9_counterexample :
    register (.cls 0) (some (.plain (.vInt 0))) "app"
        (some (.const (.vInt 42))) none none initState =
      (.ok (), { initState with providers :=
        [(.cls 0, ⟨.user (.const (.vInt 42)), "app", none, none⟩)] }) := rfl

/-- C9 (amended): `register` fails with the configuration `ValueError` —
leaving the container state, in particular the registry, unchanged —
exactly when the supplied implementation is truthy and a provider is also
supplied; when that conjunction is falsy (e.g. a falsy implementation such
as `0` together with a provider), registration proceeds. -/
theorem c9_register_conflict (i : Key) (impl : Option Impl) (sc : String)
    (prov : Option Fn) (ih dh : Option String) (s : CState) :
    (((match impl with | some x => x.truthy | none => false) && prov.isSome)
        = true →
      register i impl sc prov ih dh s =
        (.error (.valueError
          "Cannot specify both implementation and provider simultaneously."),
         s)) ∧
    (((match impl with | some x => x.truthy | none => false) && prov.isSome)
        = false →
      (register i impl sc prov ih dh s).1 = .ok ()) := by
  constructor <;> intro h <;> simp [register, h]

/-- C9 witness: the conflict case at a concrete input — a truthy
implementation (a class) together with a provider fails and leaves the
fresh container's state unchanged. -/
theorem c9_register_conflict_witness :
    ((match some (Impl.cls 1) with
      | some x => x.truthy
      | none => false) && (some (Fn.const .vNone)).isSome) = true ∧
    register (.cls 0) (some (.cls 1)) "app" (some (.const .vNone)) none none
        initState =
      (.error (.valueError
        "Cannot specify both implementation and provider simultaneously."),
       initState) :=
  ⟨rfl,
   (c9_register_conflict (.cls 0) (some (.cls 1)) "app"
     (some (.const .vNone)) none none initState).1 rfl⟩

/-- C10: when a destroy hook raises during scope teardown (here `Bad`'s
`boom`, registered before `R2`), the exception propagates out of the scope
exit, the remaining destroy hook (`R2`'s `bye2`) is never invoked (exactly
one hook event is logged), the scope's cache still holds both instances,
the active-scope marker is never cleared, and every subsequent
`enter_scope` call on the container fails with the nested-scope error. -/
theorem c10_hook_failure_poisons_scope :
    runC10.1 = .error (.userError "kaboom") ∧
    runC10.2.currentScope = some "request" ∧
    scopedGet runC10.2 "request" =
      [(.cls 2, .vObj 2 0 []), (.cls 1, .vObj 1 1 [])] ∧
    runC10.2.log =
      [.factoryRun (.cls 2), .cacheStore "request" (.cls 2),
       .factoryRun (.cls 1), .cacheStore "request" (.cls 1),
       .hookRun (.vObj 2 0 []) "boom"] ∧
    countHookRuns runC10.2.log = 1 ∧
    (∀ (β : Type) (sn : String) (w : CState → Except Err β × CState),
       enterScope envC10 sn w runC10.2 =
         (.error (.scopeError sn "Nested scopes are not supported"),
          runC10.2)) := by
  refine ⟨rfl, rfl, rfl, rfl, rfl, ?_⟩
  intro β sn w
  rw [enterScope]
  have h : optStrTruthy runC10.2.currentScope = true := rfl
  rw [h]
  simp

end AutoDI
